import Mathlib

/-!
Verification development for the FILKOM chatbot request-routing and
response-composition pipeline (app/services/chat_pipeline.py together with
app/services/template_service.py and the query surface of
app/services/kb_service.py).

The pipeline code is shallowly embedded: Python dicts become association
lists (unique keys, insertion order preserved), Python floats become
rationals, exceptions become values of an Except type, wall-clock readings
become explicit rational parameters, and the three external model services
(intent classifier, entity extractor, semantic search) become function
fields of an environment record, as the spec declares them out-of-scope
collaborators with narrow prediction contracts.
-/

/-! ## Association lists (model of Python dict: unique keys, insertion order) -/

/-- First-occurrence lookup, modelling `d.get(k)` / `d[k]`. -/
def lookupA {α : Type} : List (String × α) → String → Option α
  | [], _ => none
  | p :: ps, k => if p.1 = k then some p.2 else lookupA ps k

/-- `d[k] = v`: replace the value at an existing key in place, else append
the new binding at the end (Python dicts keep insertion order). -/
def insertA {α : Type} : List (String × α) → String → α → List (String × α)
  | [], k, v => [(k, v)]
  | p :: ps, k, v => if p.1 = k then (k, v) :: ps else p :: insertA ps k v

/-- `d.pop(k, None)`: drop the binding at `k` if present. -/
def eraseA {α : Type} : List (String × α) → String → List (String × α)
  | [], _ => []
  | p :: ps, k => if p.1 = k then ps else p :: eraseA ps k

theorem lookupA_insertA_self {α : Type} (l : List (String × α)) (k : String) (v : α) :
    lookupA (insertA l k v) k = some v := by
  induction l with
  | nil => simp [insertA, lookupA]
  | cons p ps ih =>
    by_cases h : p.1 = k
    · simp [insertA, lookupA, h]
    · simp [insertA, lookupA, h, ih]

theorem lookupA_insertA_ne {α : Type} (l : List (String × α)) (k k' : String) (v : α)
    (h : k' ≠ k) : lookupA (insertA l k v) k' = lookupA l k' := by
  induction l with
  | nil => simp [insertA, lookupA, Ne.symm h]
  | cons p ps ih =>
    by_cases hp : p.1 = k
    · subst hp
      simp [insertA, lookupA, Ne.symm h]
    · simp [insertA, lookupA, hp, ih]

theorem mem_insertA {α : Type} (l : List (String × α)) (k : String) (v : α) (p : String × α)
    (h : p ∈ insertA l k v) : p = (k, v) ∨ p ∈ l := by
  induction l with
  | nil => simp [insertA] at h; simp [h]
  | cons q qs ih =>
    by_cases hq : q.1 = k
    · simp [insertA, hq] at h
      rcases h with h | h
      · exact Or.inl h
      · exact Or.inr (List.mem_cons_of_mem _ h)
    · simp [insertA, hq] at h
      rcases h with h | h
      · exact Or.inr (by simp [h])
      · rcases ih h with h' | h'
        · exact Or.inl h'
        · exact Or.inr (List.mem_cons_of_mem _ h')

/-- Looking up after mapping a key-preserving, key-dependent value function. -/
theorem lookupA_map {α β : Type} (g : String → α → β) (l : List (String × α)) (k : String) :
    lookupA (l.map (fun p => (p.1, g p.1 p.2))) k = (lookupA l k).map (g k) := by
  induction l with
  | nil => simp [lookupA]
  | cons p ps ih =>
    by_cases h : p.1 = k
    · subst h; simp [lookupA, ih]
    · simp [lookupA, h, ih]

/-! ## Character-level string utilities

Own implementations over `List Char` (rather than the opaque byte-position
loops of core `String` functions) so every definition reduces in the kernel.
The repository data is ASCII, for which these agree with the Python
`lower` / `strip` / `replace` / `in` operations used by the source. -/

/-- ASCII lowercasing of one character, as Python `str.lower` acts on ASCII. -/
def charLower (c : Char) : Char :=
  if 65 ≤ c.toNat ∧ c.toNat ≤ 90 then Char.ofNat (c.toNat + 32) else c

/-- `s.lower()` (ASCII range). -/
def strLower (s : String) : String := ⟨s.data.map charLower⟩

def trimL (l : List Char) : List Char :=
  ((l.dropWhile Char.isWhitespace).reverse.dropWhile Char.isWhitespace).reverse

/-- `s.strip()`. -/
def strTrim (s : String) : String := ⟨trimL s.data⟩

/-- Does `l` start with `pat`? -/
def startsWithL : List Char → List Char → Bool
  | _, [] => true
  | [], _ :: _ => false
  | a :: as, b :: bs => a = b && startsWithL as bs

/-- `pat in l` (Python substring test; empty pattern is always found). -/
def containsL : List Char → List Char → Bool
  | [], pat => startsWithL [] pat
  | l@(_ :: cs), pat => startsWithL l pat || containsL cs pat

theorem startsWithL_length_le (l pat : List Char) (h : startsWithL l pat = true) :
    pat.length ≤ l.length := by
  induction l generalizing pat with
  | nil => cases pat with
    | nil => simp
    | cons b bs => simp [startsWithL] at h
  | cons a as ih =>
    cases pat with
    | nil => simp
    | cons b bs =>
      simp only [startsWithL, Bool.and_eq_true] at h
      simpa [List.length_cons] using Nat.succ_le_succ (ih bs h.2)

/-- `s.replace(pat, rep)`: left-to-right, non-overlapping, all occurrences.
An empty pattern leaves the string unchanged (never hit by the source,
whose patterns are all non-empty literals). -/
def replaceL (pat rep : List Char) : List Char → List Char
  | [] => []
  | c :: cs =>
    if h : startsWithL (c :: cs) pat ∧ pat ≠ [] then
      rep ++ replaceL pat rep ((c :: cs).drop pat.length)
    else
      c :: replaceL pat rep cs
termination_by l => l.length
decreasing_by
  · have hle := startsWithL_length_le _ _ h.1
    have : 0 < pat.length := List.length_pos.mpr h.2
    simp [List.length_drop]
    omega
  · simp

/-- `t in s` for strings. -/
def strContains (s pat : String) : Bool := containsL s.data pat.data

/-- `s.replace(pat, rep)` for strings. -/
def strReplace (s pat rep : String) : String := ⟨replaceL pat.data rep.data s.data⟩

/-- `", ".join(parts)` style joining. -/
def joinSep (sep : String) : List String → String
  | [] => ""
  | [x] => x
  | x :: xs => x ++ sep ++ joinSep sep xs

/-- Python modelling helper: `x or d` for strings (empty string is falsy). -/
def orDefault (x d : String) : String := if x = "" then d else x

/-- `round(q, 4)` — Python rounds binary floats half-to-even; no claim in
this development depends on tie behaviour, so round-half-up on rationals
stands in for it. -/
def round4 (q : ℚ) : ℚ := (⌊q * 10000 + 1 / 2⌋ : ℚ) / 10000

/-- Stand-in for Python float formatting inside f-strings (the exact digit
strings of the two low-confidence reasons are not part of any claim). -/
def confShow (q : ℚ) : String := toString q

/-! ## rapidfuzz model: `fuzz.ratio` and `process.extractOne`

`fuzz.ratio` is the normalized InDel similarity on the 0..100 scale:
`100 * (1 - indel(s1, s2) / (len1 + len2))` where
`indel(s1, s2) = len1 + len2 - 2 * lcs(s1, s2)`, hence
`ratio = 200 * lcs / (len1 + len2)`, computed here exactly in `ℚ`.
The longest-common-subsequence length is computed by row dynamic
programming so concrete evaluations stay polynomial. -/

/-- One DP row step: given previous row (suffix) and the last value `w` of
the new row, produce the rest of the new row. -/
def lcsNextRow (c : Char) : List Char → List ℕ → ℕ → List ℕ
  | [], _, _ => []
  | _ :: _, [], _ => []
  | _ :: _, [_], _ => []
  | b :: bs, p0 :: p1 :: ps, w =>
    let v := if c = b then p0 + 1 else max w p1
    v :: lcsNextRow c bs (p1 :: ps) v

/-- Length of a longest common subsequence. -/
def lcsLen (as bs : List Char) : ℕ :=
  (as.foldl (fun row c => 0 :: lcsNextRow c bs row 0)
    (List.replicate (bs.length + 1) 0)).getLastD 0

/-- `fuzz.ratio(s1, s2)` as an exact rational on the 0..100 scale. -/
def fuzzScore (s1 s2 : String) : ℚ :=
  let n := s1.data.length + s2.data.length
  if n = 0 then 100 else 200 * (lcsLen s1.data s2.data : ℚ) / (n : ℚ)

/-- `process.extractOne(q, choices, scorer=fuzz.ratio)` with no processor
and no cutoff: best-scoring choice, earliest on ties, `none` when the
choice list is empty. -/
def extractOne (q : String) : List String → Option (String × ℚ)
  | [] => none
  | c :: cs =>
    (cs.foldl
      (fun acc x => if fuzzScore q x > acc.2 then (x, fuzzScore q x) else acc)
      (c, fuzzScore q c) : String × ℚ)

/-! ## MD5 (RFC 1321), used by the deterministic fallback generator

All 32-bit machine arithmetic is `ℕ` with explicit reduction mod `2 ^ 32`. -/

def m32 : ℕ := 4294967296

def not32 (x : ℕ) : ℕ := Nat.xor x 4294967295

def rotl32 (x s : ℕ) : ℕ := (x * 2 ^ s) % m32 + x / 2 ^ (32 - s)

/-- UTF-8 encoding of one code point. -/
def utf8Bytes (c : ℕ) : List ℕ :=
  if c < 128 then [c]
  else if c < 2048 then [192 + c / 64, 128 + c % 64]
  else if c < 65536 then [224 + c / 4096, 128 + c / 64 % 64, 128 + c % 64]
  else [240 + c / 262144, 128 + c / 4096 % 64, 128 + c / 64 % 64, 128 + c % 64]

/-- `message.encode()`: UTF-8 bytes of a string. -/
def strBytes (s : String) : List ℕ := s.data.flatMap (fun c => utf8Bytes c.toNat)

/-- RFC 1321 sine-derived constants. -/
def md5K : List ℕ :=
  [0xd76aa478, 0xe8c7b756, 0x242070db, 0xc1bdceee,
   0xf57c0faf, 0x4787c62a, 0xa8304613, 0xfd469501,
   0x698098d8, 0x8b44f7af, 0xffff5bb1, 0x895cd7be,
   0x6b901122, 0xfd987193, 0xa679438e, 0x49b40821,
   0xf61e2562, 0xc040b340, 0x265e5a51, 0xe9b6c7aa,
   0xd62f105d, 0x02441453, 0xd8a1e681, 0xe7d3fbc8,
   0x21e1cde6, 0xc33707d6, 0xf4d50d87, 0x455a14ed,
   0xa9e3e905, 0xfcefa3f8, 0x676f02d9, 0x8d2a4c8a,
   0xfffa3942, 0x8771f681, 0x6d9d6122, 0xfde5380c,
   0xa4beea44, 0x4bdecfa9, 0xf6bb4b60, 0xbebfbc70,
   0x289b7ec6, 0xeaa127fa, 0xd4ef3085, 0x04881d05,
   0xd9d4d039, 0xe6db99e5, 0x1fa27cf8, 0xc4ac5665,
   0xf4292244, 0x432aff97, 0xab9423a7, 0xfc93a039,
   0x655b59c3, 0x8f0ccc92, 0xffeff47d, 0x85845dd1,
   0x6fa87e4f, 0xfe2ce6e0, 0xa3014314, 0x4e0811a1,
   0xf7537e82, 0xbd3af235, 0x2ad7d2bb, 0xeb86d391]

/-- Per-round left-rotation amounts. -/
def md5S : List ℕ :=
  [7, 12, 17, 22, 7, 12, 17, 22, 7, 12, 17, 22, 7, 12, 17, 22,
   5, 9, 14, 20, 5, 9, 14, 20, 5, 9, 14, 20, 5, 9, 14, 20,
   4, 11, 16, 23, 4, 11, 16, 23, 4, 11, 16, 23, 4, 11, 16, 23,
   6, 10, 15, 21, 6, 10, 15, 21, 6, 10, 15, 21, 6, 10, 15, 21]

/-- Message padding: `0x80`, zeros to 56 mod 64, then the 64-bit
little-endian bit length. -/
def md5Pad (msg : List ℕ) : List ℕ :=
  let bitLen := (msg.length * 8) % 2 ^ 64
  let zeros := (119 - msg.length % 64) % 64
  msg ++ [128] ++ List.replicate zeros 0 ++
    (List.range 8).map (fun i => bitLen / 2 ^ (8 * i) % 256)

/-- Little-endian 32-bit words of one 64-byte block. -/
def md5Words (block : List ℕ) : List ℕ :=
  (List.range 16).map (fun j =>
    block.getD (4 * j) 0 + 256 * block.getD (4 * j + 1) 0 +
    65536 * block.getD (4 * j + 2) 0 + 16777216 * block.getD (4 * j + 3) 0)

/-- One MD5 round `i` on state `(a, b, c, d)` with message words `w`. -/
def md5Round (w : List ℕ) (st : ℕ × ℕ × ℕ × ℕ) (i : ℕ) : ℕ × ℕ × ℕ × ℕ :=
  let (a, b, c, d) := st
  let f :=
    if i < 16 then Nat.lor (Nat.land b c) (Nat.land (not32 b) d)
    else if i < 32 then Nat.lor (Nat.land d b) (Nat.land (not32 d) c)
    else if i < 48 then Nat.xor b (Nat.xor c d)
    else Nat.xor c (Nat.lor b (not32 d))
  let g :=
    if i < 16 then i
    else if i < 32 then (5 * i + 1) % 16
    else if i < 48 then (3 * i + 5) % 16
    else (7 * i) % 16
  let sum := (f + a + md5K.getD i 0 + w.getD g 0) % m32
  (d, (b + rotl32 sum (md5S.getD i 0)) % m32, b, c)

/-- Process one 64-byte block. -/
def md5Block (st : ℕ × ℕ × ℕ × ℕ) (block : List ℕ) : ℕ × ℕ × ℕ × ℕ :=
  let w := md5Words block
  let (a, b, c, d) := (List.range 64).foldl (md5Round w) st
  ((st.1 + a) % m32, (st.2.1 + b) % m32, (st.2.2.1 + c) % m32, (st.2.2.2 + d) % m32)

/-- Digest bytes (little-endian per state word, `a` first). -/
def md5Digest (msg : List ℕ) : List ℕ :=
  let padded := md5Pad msg
  let blocks := (List.range (padded.length / 64)).map
    (fun i => (padded.drop (64 * i)).take 64)
  let (a, b, c, d) := blocks.foldl md5Block (1732584193, 4023233417, 2562383102, 271733878)
  [a, b, c, d].flatMap (fun x => (List.range 4).map (fun i => x / 2 ^ (8 * i) % 256))

/-- `int(hashlib.md5(message.encode()).hexdigest(), 16)`: hex digest read as
a big-endian 128-bit integer. -/
def md5Nat (message : String) : ℕ :=
  (md5Digest (strBytes message)).foldl (fun acc b => acc * 256 + b) 0

/-! ## Entity values

The entity extractor returns `mapping(entity_type -> list[string])`; the
pipeline additionally tolerates plain strings, so a raw entity value is
either a string or a list of strings. -/

inductive EntVal where
  | vstr (s : String)
  | vlist (l : List String)
  deriving DecidableEq

/-- `to_str` from `_normalize_entities_alias`: first element of a non-empty
list, else `str(val or "")`. -/
def to_str : EntVal → String
  | .vstr s => s
  | .vlist [] => ""
  | .vlist (x :: _) => x

/-- Python `f"{v}"` rendering of an entity value (normalized values are
always strings; the list rendering mirrors the Python list repr). -/
def entShow : EntVal → String
  | .vstr s => s
  | .vlist l =>
    let q := String.singleton (Char.ofNat 39)
    "[" ++ joinSep ", " (l.map (fun s => q ++ s ++ q)) ++ "]"

/-! ## Knowledge-base records (kb_service.py dataclasses)

Read-only records; an `alias` is the optional per-record dict
`mapping(field -> list[alias string])`. -/

def AliasMap : Type := Option (List (String × List String))

/-- `info.alias and key in info.alias` followed by `info.alias[key]`. -/
def aliasGet (a : AliasMap) (key : String) : List String :=
  match a with
  | none => []
  | some l => (lookupA l key).getD []

structure DosenInfo where
  nama_lengkap : String := "-"
  panggilan : String := "-"
  nidn : String := "-"
  no_hp : String := "-"
  matakuliah : String := "-"
  semester : ℤ := 0
  prodi : String := "-"
  aliasF : AliasMap := none  -- source field name: alias (a Lean keyword)

structure MataKuliahInfo where
  kode : String := "-"
  sks : ℤ := 0
  semester : ℤ := 0
  prodi : String := "-"
  prasyarat : String := "-"
  deskripsi : String := "-"
  kompetensi : String := "-"
  aliasF : AliasMap := none  -- source field name: alias (a Lean keyword)

structure JadwalInfo where
  mata_kuliah : String := "-"
  kode : String := "-"
  sks : ℤ := 0
  hari : String := "-"
  jam : String := "-"
  jam_mulai : ℚ := 0
  jam_selesai : ℚ := 0
  ruang : String := "-"
  kelas : String := "-"
  semester : ℤ := 0
  prodi : String := "-"
  aliasF : AliasMap := none  -- source field name: alias (a Lean keyword)

structure KalenderInfo where
  tahun : String
  semester : String
  kegiatan : String
  mulai : String
  selesai : String
  target : String
  keterangan : String

structure SkripsiInfo where
  prodi : String
  sks_minimum : ℤ
  semester_minimum : ℤ
  ipk_minimum : ℚ
  matkul_wajib : String
  dokumen : String
  prosedur : String

structure RegulasiBatasSKS where
  semester : String
  ipk_minimum : ℚ
  ipk_maksimum : ℚ
  sks_maksimal : ℤ
  sks_minimal : ℤ
  prodi : String
  keterangan : String

/-- One response template repository entry (the template JSON maps an
intent name to a dict carrying a `template` string). -/
structure TemplateEntry where
  template : String
  deriving DecidableEq

/-- The loaded knowledge base: the mappings built by `KnowledgeBaseLoader`
(whose loader lowercases every key it inserts) plus the response-template
repository. -/
structure KB where
  dosen_data : List (String × DosenInfo) := []
  matakuliah_data : List (String × MataKuliahInfo) := []
  dosen_by_matkul : List (String × List String) := []
  jadwal_by_matkul : List (String × List JadwalInfo) := []
  kalender_data : List KalenderInfo := []
  skripsi_data : List SkripsiInfo := []
  regulasi_by_prodi : List (String × List RegulasiBatasSKS) := []
  response_templates : List (String × TemplateEntry) := []

/-! ## kb_service.py query surface -/

/-- `_fuzzy_lookup(query, choices, threshold)`. -/
def fuzzy_lookup (query : String) (choices : List String) (threshold : ℚ) : Option String :=
  if query = "" ∨ choices = [] then none
  else
    match extractOne (strLower (strTrim query)) choices with
    | some best => if threshold ≤ best.2 then some best.1 else none
    | none => none

/-- `KnowledgeBaseQuery._normalize_prodi`. -/
def normalize_prodi (prodi : String) : String :=
  if prodi = "" then "teknik informatika"
  else
    let p := strTrim (strLower prodi)
    if p = "ti" ∨ p = "it" then "teknik informatika"
    else if p = "si" ∨ p = "sistem informasi" then "sistem informasi"
    else p

/-- `find_dosen_by_matkul`. -/
def find_dosen_by_matkul (kb : KB) (mata_kuliah : String) : List DosenInfo :=
  let matkul_key := (fuzzy_lookup mata_kuliah (kb.dosen_by_matkul.map (·.1)) 80).getD
    (strLower (strTrim mata_kuliah))
  ((lookupA kb.dosen_by_matkul matkul_key).getD []).filterMap (lookupA kb.dosen_data)

/-- `get_dosen_pengampu`: first instructor of the course as the dict
`(dosen, semester, prodi)`, or the empty dict (`none`). -/
def get_dosen_pengampu (kb : KB) (mata_kuliah : String) : Option (String × ℤ × String) :=
  match find_dosen_by_matkul kb mata_kuliah with
  | [] => none
  | d :: _ => some (d.nama_lengkap, d.semester, d.prodi)

/-- `find_jadwal_by_matkul`. -/
def find_jadwal_by_matkul (kb : KB) (mata_kuliah : String) : List JadwalInfo :=
  let matkul_key := (fuzzy_lookup mata_kuliah (kb.jadwal_by_matkul.map (·.1)) 80).getD
    (strLower (strTrim mata_kuliah))
  (lookupA kb.jadwal_by_matkul matkul_key).getD []

/-- `get_jadwal_by_matakuliah`: dict `(hari, jam, ruang)` of the first
schedule entry, or the empty dict. -/
def get_jadwal_by_matakuliah (kb : KB) (mata_kuliah : String) :
    Option (String × String × String) :=
  match find_jadwal_by_matkul kb mata_kuliah with
  | [] => none
  | j :: _ => some (j.hari, j.jam, j.ruang)

/-- `get_matakuliah_detail`. -/
def get_matakuliah_detail (kb : KB) (mata_kuliah : String) : Option MataKuliahInfo :=
  let matkul_key := (fuzzy_lookup mata_kuliah (kb.matakuliah_data.map (·.1)) 80).getD
    (strLower (strTrim mata_kuliah))
  lookupA kb.matakuliah_data matkul_key

/-- `get_dosen_info`: the full instructor record found under the
honorific-stripped, fuzzy-matched name, or the empty dict. -/
def get_dosen_info (kb : KB) (dosen_name : String) : Option DosenInfo :=
  let normalized_name :=
    strTrim (strReplace (strReplace (strReplace (strLower dosen_name) "dosen" "") "pak" "") "bu" "")
  let dosen_key := (fuzzy_lookup normalized_name (kb.dosen_data.map (·.1)) 80).getD normalized_name
  lookupA kb.dosen_data dosen_key

/-- `get_jadwal_semester`. -/
def get_jadwal_semester (kb : KB) (semester : String) : Option KalenderInfo :=
  kb.kalender_data.find? (fun k => strContains (strLower k.semester) (strLower semester))

/-- `get_kalender_akademik`. -/
def get_kalender_akademik (kb : KB) (prodi : String) (semester : String) : Option KalenderInfo :=
  let p := normalize_prodi prodi
  kb.kalender_data.find? (fun k =>
    strContains (strLower k.keterangan) p &&
    (semester = "" || strContains (strLower k.semester) semester))

/-- `get_batas_sks`. -/
def get_batas_sks (kb : KB) (semester : String) (ipk : ℚ) (prodi : String) :
    Option RegulasiBatasSKS :=
  let p := normalize_prodi prodi
  ((lookupA kb.regulasi_by_prodi p).getD []).find? (fun r =>
    r.semester = semester && r.ipk_minimum ≤ ipk && ipk ≤ r.ipk_maksimum)

/-- `get_syarat_skripsi` (the pipeline always calls it without an `ipk`
filter, passed here explicitly as `none`). -/
def get_syarat_skripsi (kb : KB) (prodi : String) (ipk : Option ℚ) : List SkripsiInfo :=
  let p := normalize_prodi prodi
  kb.skripsi_data.filter (fun s =>
    strTrim (strLower s.prodi) = p &&
    (match ipk with | none => true | some v => s.ipk_minimum ≤ v))

/-! ## template_service.py -/

/-- `ENTITY_KEY_MAPPING` (insertion order preserved; the placeholder loop
iterates over its keys). -/
def ENTITY_KEY_MAPPING : List (String × String) :=
  [("MATA_KULIAH", "mata_kuliah"), ("DOSEN", "nama_lengkap"), ("PRODI", "prodi"),
   ("SEMESTER", "semester"), ("HARI", "hari"), ("WAKTU", "jam"), ("RUANGAN", "ruang"),
   ("KELAS", "kelas"), ("SKS", "sks"), ("KODE_MATAKULIAH", "kode"),
   ("PRASYARAT", "prasyarat"), ("NAMA_LENGKAP", "nama_lengkap"),
   ("NAMA_PANGGILAN", "panggilan"), ("NIDN", "nidn"), ("PHONE", "no_hp"),
   ("IPK", "ipk_minimum"), ("TOTAL_SKS", "sks_minimum"), ("KEGIATAN", "kegiatan"),
   ("TANGGAL_MULAI", "mulai"), ("TANGGAL_SELESAI", "selesai"),
   ("DOKUMEN", "dokumen"), ("PROSEDUR", "prosedur")]

/-- `TemplateService._normalize_entity_value`: list-safe coercion of a
possibly missing raw entity value to a trimmed string. -/
def normalize_entity_value : Option EntVal → String
  | none => ""
  | some (.vstr s) => strTrim s
  | some (.vlist []) => ""
  | some (.vlist (x :: _)) => strTrim x

/-- `TemplateService._normalize_dosen_name`. -/
def normalize_dosen_name (name : String) : String :=
  if name = "" then ""
  else strTrim (strReplace (strReplace (strReplace (strLower name) "dosen" "") "pak" "") "bu" "")

/-- `TemplateService._normalize_alias_query`: fuzzy-match a value against
the per-intent key family at threshold 75, falling back to the value. -/
def normalize_alias_query (kb : KB) (value : String) (intent : String) : String :=
  if value = "" then value
  else
    let matkulIntents := ["INFO_MATAKULIAH", "SKS_MATKUL", "PRASYARAT_MATKUL",
      "JADWAL_MATAKULIAH", "JADWAL_HARI", "JADWAL_RUANGAN"]
    let dosenIntents := ["DOSEN_PENGAMPU", "INFO_DOSEN_UMUM", "KONTAK_DOSEN", "NIDN_DOSEN"]
    let all_keys :=
      if intent ∈ matkulIntents then kb.matakuliah_data.map (·.1)
      else if intent ∈ dosenIntents then kb.dosen_data.map (·.1)
      else []
    if all_keys = [] then value
    else
      match extractOne (strTrim (strLower value)) all_keys with
      | some best => if 75 ≤ best.2 then best.1 else value
      | none => value

/-- Simple decimal parser standing in for Python `float(...)` on the KB
strings it meets (`digits[.digits]` with an optional sign; Python also
accepts exponents and special values, which the KB data never contains).
`none` models the `ValueError` the surrounding lookup catches. -/
def parseDec (s : String) : Option ℚ :=
  let digitsVal : List Char → Option ℕ := fun l =>
    if l ≠ [] ∧ l.all (fun c => 48 ≤ c.toNat ∧ c.toNat ≤ 57) then
      some (l.foldl (fun acc c => acc * 10 + (c.toNat - 48)) 0)
    else none
  let l := trimL s.data
  let (sgn, body) : ℚ × List Char :=
    match l with
    | c :: rest =>
      if c.toNat = 45 then (-1, rest) else if c.toNat = 43 then (1, rest) else (1, l)
    | [] => (1, [])
  match body.splitOn (Char.ofNat 46) with
  | [ip] => (digitsVal ip).map (fun n => sgn * n)
  | [ip, fp] =>
    if ip = [] then (digitsVal fp).map (fun f => sgn * (f : ℚ) / 10 ^ fp.length)
    else if fp = [] then (digitsVal ip).map (fun n => sgn * n)
    else
      match digitsVal ip, digitsVal fp with
      | some n, some f => some (sgn * ((n : ℚ) + (f : ℚ) / 10 ^ fp.length))
      | _, _ => none
  | _ => none

/-- `TemplateService._lookup_from_kb`: per-intent knowledge-base resolution
of one placeholder; `"-"` is the not-found sentinel and also the value of
the branch-level exception catch. -/
def lookup_from_kb (kb : KB) (intent placeholder : String)
    (entities : List (String × EntVal)) : String :=
  if intent = "BATAS_SKS" ∧ placeholder = "SKS" then
    let prodi := orDefault (normalize_entity_value (lookupA entities "PRODI")) "Teknik Informatika"
    let semester := orDefault (normalize_entity_value (lookupA entities "SEMESTER")) "1"
    let ipkStr := normalize_entity_value (lookupA entities "IPK")
    match (if ipkStr = "" then some 0 else parseDec ipkStr) with
    | none => "-"
    | some ipk =>
      match get_batas_sks kb semester ipk prodi with
      | some r => toString r.sks_maksimal
      | none => "-"
  else if intent = "DOSEN_PENGAMPU" then
    let matkul := normalize_alias_query kb
      (normalize_entity_value (lookupA entities "MATA_KULIAH")) intent
    match get_dosen_pengampu kb matkul with
    | none => "-"
    | some d =>
      if placeholder = "DOSEN" then d.1
      else if placeholder = "SEMESTER" then toString d.2.1
      else if placeholder = "PRODI" then d.2.2
      else "-"
  else if intent = "INFO_DOSEN_UMUM" then
    let dosen_name := normalize_alias_query kb
      (normalize_dosen_name (normalize_entity_value (lookupA entities "DOSEN"))) intent
    match get_dosen_info kb dosen_name with
    | none => "-"
    | some d =>
      if placeholder = "NAMA_LENGKAP" then d.nama_lengkap
      else if placeholder = "NAMA_PANGGILAN" then d.panggilan
      else if placeholder = "PRODI" then d.prodi
      else if placeholder = "MATA_KULIAH" then d.matakuliah
      else if placeholder = "SEMESTER" then toString d.semester
      else "-"
  else if intent = "INFO_MATAKULIAH" ∨ intent = "SKS_MATKUL" ∨ intent = "PRASYARAT_MATKUL" then
    let matkul_name := normalize_alias_query kb
      (normalize_entity_value (lookupA entities "MATA_KULIAH")) intent
    match get_matakuliah_detail kb matkul_name with
    | none => "-"
    | some m =>
      -- key_map sends MATA_KULIAH to attribute "mata_kuliah", which the
      -- MataKuliahInfo dataclass does not define, so getattr defaults to "-".
      if placeholder = "KODE_MATAKULIAH" then m.kode
      else if placeholder = "PRODI" then m.prodi
      else if placeholder = "SEMESTER" then toString m.semester
      else if placeholder = "SKS" then toString m.sks
      else if placeholder = "PRASYARAT" then m.prasyarat
      else "-"
  else if intent = "JADWAL_SEMESTER" then
    let semester := orDefault (normalize_entity_value (lookupA entities "SEMESTER")) "semester 1"
    match get_jadwal_semester kb semester with
    | none => "-"
    | some k =>
      if placeholder = "TANGGAL_MULAI" then k.mulai
      else if placeholder = "TANGGAL_SELESAI" then k.selesai
      else "-"
  else if intent = "JADWAL_MATAKULIAH" ∨ intent = "JADWAL_HARI" ∨ intent = "JADWAL_RUANGAN" then
    let matkul_name := normalize_alias_query kb
      (normalize_entity_value (lookupA entities "MATA_KULIAH")) intent
    match get_jadwal_by_matakuliah kb matkul_name with
    | none => "-"
    | some j =>
      if placeholder = "HARI" then j.1
      else if placeholder = "WAKTU" then j.2.1
      else if placeholder = "RUANGAN" then j.2.2
      else "-"
  else if intent = "JADWAL_PRODI" then
    let prodi := orDefault (normalize_entity_value (lookupA entities "PRODI")) "Teknik Informatika"
    match get_kalender_akademik kb prodi (normalize_entity_value (lookupA entities "SEMESTER")) with
    | none => "-"
    | some k =>
      if placeholder = "TANGGAL_MULAI" then k.mulai
      else if placeholder = "TANGGAL_SELESAI" then k.selesai
      else "-"
  else if intent = "KONTAK_DOSEN" ∨ intent = "NIDN_DOSEN" then
    let dosen_name := normalize_alias_query kb
      (normalize_dosen_name (normalize_entity_value (lookupA entities "DOSEN"))) intent
    match get_dosen_info kb dosen_name with
    | none => "-"
    | some d => if placeholder = "NIDN" then d.nidn else d.no_hp
  else if intent = "SYARAT_SKRIPSI" then
    match get_syarat_skripsi kb (orDefault (normalize_entity_value (lookupA entities "PRODI"))
        "Teknik Informatika") none with
    | [] => "-"
    | s :: _ =>
      if placeholder = "IPK" then toString s.ipk_minimum else toString s.sks_minimum
  else "-"

/-- One semantic-search hit as the composer consumes it: its `text` and the
optional `metadata["source"]`. -/
structure SearchRes where
  text : String
  source : Option String
  score : ℚ
  deriving DecidableEq

/-- `TemplateService._fill_kb_placeholders`: substitute every mapped
placeholder present in the template from the supplied entities first, then
a KB lookup, then the `"-"` sentinel; finally fill `{SOURCE}` for the
open-ended intents when search results were supplied. -/
def fill_kb_placeholders (kb : KB) (intent : String) (entities : List (String × EntVal))
    (template : String) (search_results : Option (List SearchRes)) : String :=
  let t := ENTITY_KEY_MAPPING.foldl (fun t p =>
    let ph := "\x7b" ++ p.1 ++ "\x7d"
    if strContains t ph then
      let ent_value := normalize_entity_value (lookupA entities p.1)
      let final_value := if ent_value ≠ "" then ent_value else lookup_from_kb kb intent p.1 entities
      strReplace t ph (orDefault final_value "-")
    else t) template
  match search_results with
  | some (s :: _) =>
    if intent = "OUT_OF_SCOPE" ∨ intent = "PANDUAN_KRS" ∨ intent = "PROSEDUR_CUTI" then
      strReplace t "\x7bSOURCE\x7d" (s.source.getD "Referensi KB")
    else t
  | _ => t

/-- `TemplateService._get_base_template`: the stored template string, or
the no-template message for an unregistered intent. -/
def get_base_template (kb : KB) (intent : String) : String :=
  match lookupA kb.response_templates intent with
  | some e => e.template
  | none => "Maaf, saya belum memiliki template jawaban untuk intent ini."

/-- `TemplateService.fill_template`. Its try/except wrapper is dead code in
this model: `_get_base_template` and `_fill_kb_placeholders` are total
(the latter catches internally in the source as well). -/
def fill_template (kb : KB) (intent : String) (entities : List (String × EntVal))
    (search_results : Option (List SearchRes)) : String :=
  fill_kb_placeholders kb intent entities (get_base_template kb intent) search_results

/-! ## chat_pipeline.py: data classes and environment -/

/-- One turn record appended to a conversation history (timestamps are
modelled as rational clock readings). -/
structure Turn where
  timestamp : ℚ
  user_message : String
  bot_response : String
  intent : String
  entities : List (String × EntVal)
  deriving DecidableEq

/-- `ChatContext`. -/
structure ChatContext where
  user_id : String
  session_id : String
  conversation_history : List Turn
  last_intent : Option String := none
  last_entities : Option (List (String × EntVal)) := none
  created_at : ℚ := 0
  deriving DecidableEq

/-- `PipelineResult`. -/
structure PipelineResult where
  response : String
  intent : String
  entities : List (String × EntVal)
  confidence : ℚ
  search_results : Option (List SearchRes) := none
  template_used : Option String := none
  fallback_reason : Option String := none
  processing_time : Option ℚ := none
  cached : Bool := false
  deriving DecidableEq

/-- The two shared mutable registries owned by the orchestrator instance. -/
structure PipelineState where
  contexts : List (String × ChatContext) := []
  cache : List (String × PipelineResult) := []
  deriving DecidableEq

/-- A message argument: a string, or any non-string value (rejected by the
input validation together with the empty string). -/
inductive Msg where
  | str (s : String)
  | notStr
  deriving DecidableEq

/-- External service invocations, recorded in call order. -/
inductive Effect where
  | intentCall
  | nerCall
  | searchCall
  deriving DecidableEq

/-- The out-of-scope collaborators and the loaded knowledge base: the
intent classifier (`predict_intent`), the entity extractor
(`extract_key_entities`), the semantic search service (its `is_loaded`
flag and its `search(...)["results"]`), each able to fail with an
exception carrying a message string. -/
structure Env where
  intent_predict : String → Except String (String × ℚ)
  ner_extract : String → Except String (List (String × EntVal))
  search_is_loaded : Bool
  search : String → Except String (List SearchRes)
  kb : KB

/-- Result of one `process_message` call: the returned value (or the
raised input-validation exception), the orchestrator state afterwards, and
the trace of external service invocations. -/
structure PMOut where
  res : Except String PipelineResult
  state : PipelineState
  trace : List Effect

def intent_threshold : ℚ := 85 / 100

def fallback_threshold : ℚ := 5 / 10

def context_key (user_id session_id : String) : String := user_id ++ "_" ++ session_id

def cache_key_of (message user_id session_id : String) : String :=
  strLower (strTrim message) ++ "::" ++ user_id ++ "::" ++ session_id

/-- The empty context created lazily for a first message. -/
def fresh_context (user_id session_id : String) (t0 : ℚ) : ChatContext :=
  { user_id := user_id, session_id := session_id, conversation_history := [], created_at := t0 }

/-- `get_or_create_context`: look up the composite key, lazily creating an
empty context (the new binding is appended, in dict insertion order). -/
def get_or_create_context (st : PipelineState) (user_id session_id : String) (t0 : ℚ) :
    ChatContext × PipelineState :=
  match lookupA st.contexts (context_key user_id session_id) with
  | some c => (c, st)
  | none =>
    let c := fresh_context user_id session_id t0
    (c, { st with contexts := st.contexts ++ [(context_key user_id session_id, c)] })

/-- `_update_context`: append the turn record, set the last-turn fields,
and truncate the history to its last 10 entries. -/
def update_context (ctx : ChatContext) (message intent : String)
    (entities : List (String × EntVal)) (response : String) (t1 : ℚ) : ChatContext :=
  let h := ctx.conversation_history ++
    [{ timestamp := t1, user_message := message, bot_response := response,
       intent := intent, entities := entities }]
  { ctx with
    conversation_history := if h.length > 10 then h.drop (h.length - 10) else h,
    last_intent := some intent,
    last_entities := some entities }

/-- `get_conversation_history`: empty when no context exists. -/
def get_conversation_history (st : PipelineState) (user_id session_id : String) : List Turn :=
  match lookupA st.contexts (context_key user_id session_id) with
  | some c => c.conversation_history
  | none => []

/-- `clear_context`. -/
def clear_context (st : PipelineState) (user_id session_id : String) : PipelineState :=
  { st with contexts := eraseA st.contexts (context_key user_id session_id) }

/-! ## Entity normalization (`_normalize_entities_alias`) -/

/-- The course choice list: every `matakuliah_data` key (the loader stores
them lowercased) followed by the lowercased `mata_kuliah` aliases of every
record. -/
def matkulChoices (kb : KB) : List String :=
  kb.matakuliah_data.map (·.1) ++
    kb.matakuliah_data.flatMap (fun p => (aliasGet p.2.aliasF "mata_kuliah").map strLower)

/-- The instructor choice list: every `dosen_data` key followed by the
lowercased `nama_lengkap` aliases of every record. -/
def dosenChoices (kb : KB) : List String :=
  kb.dosen_data.map (·.1) ++
    kb.dosen_data.flatMap (fun p => (aliasGet p.2.aliasF "nama_lengkap").map strLower)

/-- The per-entry body of the `for k, v in entities.items()` loop of
`_normalize_entities_alias`: coerce to a trimmed string; a `MATA_KULIAH`
or `DOSEN` value is fuzzy-matched (threshold 75) against the
key-plus-alias choice list and replaced by the best match when it clears
the threshold, the `DOSEN` query first stripped of honorifics. -/
def normalize_entry (kb : KB) (k : String) (v : EntVal) : EntVal :=
  let val := strTrim (to_str v)
  if val = "" then EntVal.vstr ""
  else if k = "MATA_KULIAH" then
    match extractOne (strLower val) (matkulChoices kb) with
    | some best => EntVal.vstr (if 75 ≤ best.2 then best.1 else val)
    | none => EntVal.vstr val
  else if k = "DOSEN" then
    let clean := strTrim (strReplace (strReplace (strReplace (strLower val)
      "dosen" "") "pak" "") "bu" "")
    match extractOne clean (dosenChoices kb) with
    | some best => EntVal.vstr (if 75 ≤ best.2 then best.1 else val)
    | none => EntVal.vstr val
  else EntVal.vstr val

/-- `_normalize_entities_alias`: the mapping rebuilt entry by entry into a
fresh dict, which for unique keys is a map over the entries. Its enclosing
catch-all (returning the raw mapping) is unreachable here because the body
is total. -/
def normalize_entities_alias (kb : KB) (intent : String)
    (entities : List (String × EntVal)) : List (String × EntVal) :=
  entities.map (fun p => (p.1, normalize_entry kb p.1 p.2))

/-! ## Response generation -/

/-- The fixed fallback response set. -/
def fallback_responses : List String :=
  ["Maaf, saya belum memahami pertanyaan Anda. Bisa dijelaskan lebih spesifik?",
   "Saya belum bisa menjawab pertanyaan tersebut. Coba tanyakan tentang jadwal kuliah, dosen, atau mata kuliah.",
   "Pertanyaan Anda di luar pemahaman saya saat ini. Silakan tanyakan informasi akademik FILKOM.",
   "Maaf, saya membutuhkan informasi yang lebih jelas. Coba tanyakan tentang kurikulum, jadwal, atau dosen."]

/-- `_generate_fallback_response`: the MD5-selected canned response. -/
def generate_fallback_response (message : String) : String :=
  fallback_responses.getD (md5Nat message % 4) ""

/-- `_generate_search_response`: hybrid search on the raw message; with
results, cite the top text and append the detected entities; with no
results or a search exception, fall back. -/
def generate_search_response (env : Env) (message : String)
    (entities : List (String × EntVal)) : String × List SearchRes :=
  match env.search message with
  | .error _ => (generate_fallback_response message, [])
  | .ok [] => (generate_fallback_response message, [])
  | .ok (best :: rest) =>
    let response := "Berdasarkan informasi yang saya temukan: " ++ best.text
    let response :=
      if entities ≠ [] then
        response ++ "\n\n(Entitas terdeteksi: " ++
          joinSep ", " (entities.map (fun p => p.1 ++ ": " ++ entShow p.2)) ++ ")"
      else response
    (response, best :: rest)

/-- The routing policy (the if/elif chain of `process_message`, evaluated
top-down, first match wins), producing the response text, the search
results, the fallback reason, and the search-service invocations it made. -/
def route (env : Env) (message intent : String) (intent_confidence : ℚ)
    (entities : List (String × EntVal)) :
    String × Option (List SearchRes) × Option String × List Effect :=
  if intent = "GREETING" ∨ intent = "HELP" ∨ intent = "GOODBYE" ∨ intent = "CLARIFICATION" then
    (fill_template env.kb intent entities none, none, none, [])
  else if intent = "PANDUAN_KRS" ∨ intent = "PROSEDUR_CUTI" then
    let p := generate_search_response env message entities
    (p.1, some p.2, some ("Intent panjang (" ++ intent ++ "), langsung semantic search"),
      [Effect.searchCall])
  else if intent_threshold ≤ intent_confidence then
    -- `_generate_template_response` delegates to `fill_template`; its
    -- search fallback guards an exception `fill_template` cannot raise.
    (fill_template env.kb intent entities none, none, none, [])
  else if fallback_threshold ≤ intent_confidence ∧ env.search_is_loaded then
    let p := generate_search_response env message entities
    (p.1, some p.2,
      some ("Low intent confidence (" ++ confShow intent_confidence ++ "), using semantic search"),
      [Effect.searchCall])
  else
    (generate_fallback_response message, none,
      some ("Very low intent confidence (" ++ confShow intent_confidence ++ ")"), [])

/-- The `PipelineResult` built by the top-level exception handler. -/
def error_result (e : String) : PipelineResult :=
  { response := "Maaf, terjadi kesalahan dalam memproses pertanyaan Anda. Silakan coba lagi.",
    intent := "ERROR",
    entities := [],
    confidence := 0,
    fallback_reason := some e }

/-- The body of the try block after both external predictions succeeded
(normalization, routing, context update, result construction, cache
store); no remaining step can raise. -/
def process_routed (env : Env) (st1 : PipelineState) (context : ChatContext)
    (message user_id session_id : String) (intent : String) (intent_confidence : ℚ)
    (raw_entities : List (String × EntVal)) (t0 t1 : ℚ) : PMOut :=
  let entities := normalize_entities_alias env.kb intent raw_entities
  let r := route env message intent intent_confidence entities
  let context2 := update_context context message intent entities r.1 t1
  let st2 := { st1 with contexts := insertA st1.contexts (context_key user_id session_id) context2 }
  let result : PipelineResult :=
    { response := r.1,
      intent := intent,
      entities := entities,
      confidence := round4 intent_confidence,
      search_results := r.2.1,
      template_used :=
        if (lookupA env.kb.response_templates intent).isSome then some intent else none,
      fallback_reason := r.2.2.1,
      processing_time := some (round4 (t1 - t0)),
      cached := false }
  ⟨.ok result,
   { st2 with cache := insertA st2.cache (cache_key_of message user_id session_id) result },
   [Effect.intentCall, Effect.nerCall] ++ r.2.2.2⟩

/-- The try block: the two external predictions, each able to raise (their
failures are the only reachable exceptions of steps 2 to 7), then the
routed remainder. A failure is caught at the top level and converted to
the `"ERROR"` result without touching the cache. -/
def process_tried (env : Env) (st1 : PipelineState) (context : ChatContext)
    (message user_id session_id : String) (t0 t1 : ℚ) : PMOut :=
  match env.intent_predict message with
  | .error e => ⟨.ok (error_result e), st1, [Effect.intentCall]⟩
  | .ok ic =>
    match env.ner_extract message with
    | .error e => ⟨.ok (error_result e), st1, [Effect.intentCall, Effect.nerCall]⟩
    | .ok raw_entities =>
      process_routed env st1 context message user_id session_id ic.1 ic.2 raw_entities t0 t1

/-- The in-place mutation a cache hit performs on the stored (shared)
result object: set `cached` and refresh `processing_time`. -/
def hit_update (stored : PipelineResult) (t0 t1 : ℚ) : PipelineResult :=
  { stored with cached := true, processing_time := some (round4 (t1 - t0)) }

/-- Steps after input validation: context resolution, cache check (a hit
returns the stored result, mutating its `cached` flag and processing time
in place, hence also in the cache), else the try block. -/
def process_validated (env : Env) (st : PipelineState)
    (message user_id session_id : String) (t0 t1 : ℚ) : PMOut :=
  let cs := get_or_create_context st user_id session_id t0
  let ck := cache_key_of message user_id session_id
  match lookupA cs.2.cache ck with
  | some stored =>
    ⟨.ok (hit_update stored t0 t1),
     { cs.2 with cache := insertA cs.2.cache ck (hit_update stored t0 t1) }, []⟩
  | none => process_tried env cs.2 cs.1 message user_id session_id t0 t1

/-- `process_message(message, user_id, session_id)`, with the call-time
clock readings `t0` (start) and `t1` (completion) passed explicitly. An
empty or non-string message raises `ChatbotException("Invalid input
text.")` before any state change or service call. -/
def process_message (env : Env) (st : PipelineState) (msg : Msg)
    (user_id session_id : String) (t0 t1 : ℚ) : PMOut :=
  match msg with
  | .notStr => ⟨.error "Invalid input text.", st, []⟩
  | .str message =>
    if message = "" then ⟨.error "Invalid input text.", st, []⟩
    else process_validated env st message user_id session_id t0 t1

/-! ## Basic facts about the pipeline stages -/

theorem gocc_cache (st : PipelineState) (u s : String) (t0 : ℚ) :
    (get_or_create_context st u s t0).2.cache = st.cache := by
  cases h : lookupA st.contexts (context_key u s) <;>
    simp [get_or_create_context, h]

theorem gocc_hist (st : PipelineState) (u s : String) (t0 : ℚ) :
    (get_or_create_context st u s t0).1.conversation_history =
      get_conversation_history st u s := by
  cases h : lookupA st.contexts (context_key u s) <;>
    simp [get_or_create_context, get_conversation_history, h, fresh_context]

theorem gocc_contexts (st : PipelineState) (u s : String) (t0 : ℚ) :
    (get_or_create_context st u s t0).2.contexts =
      if (lookupA st.contexts (context_key u s)).isSome then st.contexts
      else st.contexts ++ [(context_key u s, fresh_context u s t0)] := by
  cases h : lookupA st.contexts (context_key u s) <;>
    simp [get_or_create_context, h]

theorem lookupA_append {α : Type} (l l' : List (String × α)) (k : String) :
    lookupA (l ++ l') k =
      match lookupA l k with
      | some v => some v
      | none => lookupA l' k := by
  induction l with
  | nil => simp [lookupA]
  | cons p ps ih =>
    by_cases h : p.1 = k <;> simp [lookupA, h, ih]

theorem gocc_lookup_some (st : PipelineState) (u s : String) (t0 : ℚ) (k : String)
    (c : ChatContext) (h : lookupA st.contexts k = some c) :
    lookupA (get_or_create_context st u s t0).2.contexts k = some c := by
  rw [gocc_contexts]
  by_cases hp : (lookupA st.contexts (context_key u s)).isSome
  · simpa [hp] using h
  · simp only [hp, if_false, Bool.false_eq_true, lookupA_append, h]

theorem gocc_self_hist (st : PipelineState) (u s : String) (t0 : ℚ) :
    lookupA (get_or_create_context st u s t0).2.contexts (context_key u s) =
      some (get_or_create_context st u s t0).1 := by
  cases h : lookupA st.contexts (context_key u s) with
  | some c => simp [get_or_create_context, h]
  | none =>
    simp [get_or_create_context, h, lookupA_append, lookupA]

/-- Shape of a call rejected by input validation. -/
theorem process_invalid_shape (env : Env) (st : PipelineState) (u s : String) (t0 t1 : ℚ)
    (msg : Msg) (h : msg = Msg.notStr ∨ msg = Msg.str "") :
    process_message env st msg u s t0 t1 = ⟨.error "Invalid input text.", st, []⟩ := by
  rcases h with h | h <;> subst h <;> simp [process_message]

/-- Shape of a cache-hit call. -/
theorem process_hit_shape (env : Env) (st : PipelineState) (message u s : String)
    (t0 t1 : ℚ) (stored : PipelineResult) (hm : message ≠ "")
    (hhit : lookupA st.cache (cache_key_of message u s) = some stored) :
    process_message env st (.str message) u s t0 t1 =
      ⟨.ok (hit_update stored t0 t1),
       { contexts := (get_or_create_context st u s t0).2.contexts,
         cache := insertA st.cache (cache_key_of message u s) (hit_update stored t0 t1) },
       []⟩ := by
  simp only [process_message, if_neg hm, process_validated, gocc_cache, hhit]

/-- Shape of a call on which the intent service raises. -/
theorem process_err_intent_shape (env : Env) (st : PipelineState) (message u s : String)
    (t0 t1 : ℚ) (e : String) (hm : message ≠ "")
    (hmiss : lookupA st.cache (cache_key_of message u s) = none)
    (he : env.intent_predict message = .error e) :
    process_message env st (.str message) u s t0 t1 =
      ⟨.ok (error_result e), (get_or_create_context st u s t0).2, [Effect.intentCall]⟩ := by
  simp only [process_message, if_neg hm, process_validated, gocc_cache, hmiss,
    process_tried, he]

/-- Shape of a call on which the entity service raises. -/
theorem process_err_ner_shape (env : Env) (st : PipelineState) (message u s : String)
    (t0 t1 : ℚ) (ic : String × ℚ) (e : String) (hm : message ≠ "")
    (hmiss : lookupA st.cache (cache_key_of message u s) = none)
    (hi : env.intent_predict message = .ok ic)
    (hn : env.ner_extract message = .error e) :
    process_message env st (.str message) u s t0 t1 =
      ⟨.ok (error_result e), (get_or_create_context st u s t0).2,
       [Effect.intentCall, Effect.nerCall]⟩ := by
  simp only [process_message, if_neg hm, process_validated, gocc_cache, hmiss,
    process_tried, hi, hn]

/-- Shape of a freshly processed call. -/
theorem process_fresh_shape (env : Env) (st : PipelineState) (message u s : String)
    (t0 t1 : ℚ) (intent : String) (conf : ℚ) (ents : List (String × EntVal))
    (hm : message ≠ "") (hmiss : lookupA st.cache (cache_key_of message u s) = none)
    (hi : env.intent_predict message = .ok (intent, conf))
    (hn : env.ner_extract message = .ok ents) :
    process_message env st (.str message) u s t0 t1 =
      process_routed env (get_or_create_context st u s t0).2
        (get_or_create_context st u s t0).1 message u s intent conf ents t0 t1 := by
  simp only [process_message, if_neg hm, process_validated, gocc_cache, hmiss,
    process_tried, hi, hn]

/-- The result record a freshly processed call returns and caches. -/
def routed_result (env : Env) (message intent : String) (conf : ℚ)
    (ents : List (String × EntVal)) (t0 t1 : ℚ) : PipelineResult :=
  let entities := normalize_entities_alias env.kb intent ents
  { response := (route env message intent conf entities).1,
    intent := intent,
    entities := entities,
    confidence := round4 conf,
    search_results := (route env message intent conf entities).2.1,
    template_used :=
      if (lookupA env.kb.response_templates intent).isSome then some intent else none,
    fallback_reason := (route env message intent conf entities).2.2.1,
    processing_time := some (round4 (t1 - t0)),
    cached := false }

theorem process_routed_res (env : Env) (st1 : PipelineState) (ctx : ChatContext)
    (message u s intent : String) (conf : ℚ) (ents : List (String × EntVal)) (t0 t1 : ℚ) :
    (process_routed env st1 ctx message u s intent conf ents t0 t1).res =
      .ok (routed_result env message intent conf ents t0 t1) := rfl

theorem process_routed_state (env : Env) (st1 : PipelineState) (ctx : ChatContext)
    (message u s intent : String) (conf : ℚ) (ents : List (String × EntVal)) (t0 t1 : ℚ) :
    (process_routed env st1 ctx message u s intent conf ents t0 t1).state =
      { contexts := insertA st1.contexts (context_key u s)
          (update_context ctx message intent (normalize_entities_alias env.kb intent ents)
            (route env message intent conf (normalize_entities_alias env.kb intent ents)).1 t1),
        cache := insertA st1.cache (cache_key_of message u s)
          (routed_result env message intent conf ents t0 t1) } := rfl

theorem process_routed_trace (env : Env) (st1 : PipelineState) (ctx : ChatContext)
    (message u s intent : String) (conf : ℚ) (ents : List (String × EntVal)) (t0 t1 : ℚ) :
    (process_routed env st1 ctx message u s intent conf ents t0 t1).trace =
      [Effect.intentCall, Effect.nerCall] ++
        (route env message intent conf (normalize_entities_alias env.kb intent ents)).2.2.2 := rfl

/-- Routing branch 1: the four conversational intents go straight to the
template engine, with no search call, no search results and no reason. -/
theorem route_greeting (env : Env) (message intent : String) (conf : ℚ)
    (entities : List (String × EntVal))
    (hg : intent = "GREETING" ∨ intent = "HELP" ∨ intent = "GOODBYE" ∨ intent = "CLARIFICATION") :
    route env message intent conf entities =
      (fill_template env.kb intent entities none, none, none, []) := by
  simp only [route, if_pos hg]

/-! ## Suffix-of-a-list helper (`history[-10:]`) -/

def lastN {α : Type} (n : ℕ) (l : List α) : List α := l.drop (l.length - n)

theorem length_lastN {α : Type} (n : ℕ) (l : List α) :
    (lastN n l).length = min n l.length := by
  simp only [lastN, List.length_drop]
  omega

theorem lastN_of_le {α : Type} (n : ℕ) (l : List α) (h : l.length ≤ n) :
    lastN n l = l := by
  simp [lastN, Nat.sub_eq_zero_of_le h]

theorem truncate_eq_lastN {α : Type} (l : List α) :
    (if l.length > 10 then l.drop (l.length - 10) else l) = lastN 10 l := by
  by_cases h : l.length > 10
  · simp [h, lastN]
  · simp [h, lastN_of_le 10 l (by omega)]

theorem lastN_append_lastN {α : Type} (n : ℕ) (a b : List α) :
    lastN n (lastN n a ++ b) = lastN n (a ++ b) := by
  by_cases h1 : n ≤ b.length
  · have e1 : (lastN n a).length + b.length - n = (lastN n a).length + (b.length - n) := by
      omega
    have e2 : a.length + b.length - n = a.length + (b.length - n) := by omega
    calc lastN n (lastN n a ++ b)
        = (lastN n a ++ b).drop ((lastN n a).length + (b.length - n)) := by
          simp only [lastN, List.length_append, List.length_drop]
          rw [show (a.length - (a.length - n)) + b.length - n
              = (a.length - (a.length - n)) + (b.length - n) by omega]
      _ = b.drop (b.length - n) := List.drop_append _
      _ = (a ++ b).drop (a.length + (b.length - n)) := (List.drop_append _).symm
      _ = lastN n (a ++ b) := by simp only [lastN, List.length_append, e2]
  · by_cases h2 : a.length ≤ n
    · rw [lastN_of_le n a h2]
    · have hla : (lastN n a).length = n := by rw [length_lastN]; omega
      have hbn : b.length ≤ n := by omega
      calc lastN n (lastN n a ++ b)
          = (lastN n a ++ b).drop b.length := by
            simp only [lastN, List.length_append, List.length_drop]
            rw [show a.length - (a.length - n) + b.length - n = b.length by omega]
        _ = (lastN n a).drop b.length ++ b := by
            rw [List.drop_append_of_le_length (by omega)]
        _ = a.drop ((a.length - n) + b.length) ++ b := by
            simp only [lastN, List.drop_drop]
        _ = a.drop (a.length + b.length - n) ++ b := by
            rw [show (a.length - n) + b.length = a.length + b.length - n by omega]
        _ = (a ++ b).drop (a.length + b.length - n) := by
            rw [List.drop_append_of_le_length (by omega)]
        _ = lastN n (a ++ b) := by simp [lastN]

/-- The source truncation of `_update_context` is exactly the last-10
suffix of the extended history. -/
theorem update_context_hist (ctx : ChatContext) (message intent : String)
    (entities : List (String × EntVal)) (response : String) (t1 : ℚ) :
    (update_context ctx message intent entities response t1).conversation_history =
      lastN 10 (ctx.conversation_history ++
        [{ timestamp := t1, user_message := message, bot_response := response,
           intent := intent, entities := entities }]) := by
  simp only [update_context]
  exact truncate_eq_lastN _

/-! ## Call sequences and the history invariant -/

def isOkB {ε α : Type} : Except ε α → Bool
  | .ok _ => true
  | .error _ => false

theorem isOkB_iff {ε α : Type} (e : Except ε α) : isOkB e = true ↔ ∃ x, e = .ok x := by
  cases e <;> simp [isOkB]

/-- One `process_message` invocation: its message and clock readings. -/
structure CallSpec where
  msg : String
  t0 : ℚ
  t1 : ℚ

/-- The orchestrator state after a sequence of calls for one
(user, session) pair. -/
def runSeq (env : Env) (u s : String) : PipelineState → List CallSpec → PipelineState
  | st, [] => st
  | st, c :: rest =>
    runSeq env u s (process_message env st (.str c.msg) u s c.t0 c.t1).state rest

/-- Every call of the sequence is freshly processed: non-empty message,
cache miss at its composite key, and both external predictions succeed. -/
def freshRunB (env : Env) (u s : String) : PipelineState → List CallSpec → Bool
  | _, [] => true
  | st, c :: rest =>
    (c.msg != "") && (lookupA st.cache (cache_key_of c.msg u s)).isNone &&
    isOkB (env.intent_predict c.msg) && isOkB (env.ner_extract c.msg) &&
    freshRunB env u s (process_message env st (.str c.msg) u s c.t0 c.t1).state rest

/-- Every registered context keeps at most 10 turns of history. -/
def HistInv (st : PipelineState) : Prop :=
  ∀ p ∈ st.contexts, p.2.conversation_history.length ≤ 10

theorem histInv_gocc (st : PipelineState) (u s : String) (t0 : ℚ) (h : HistInv st) :
    HistInv (get_or_create_context st u s t0).2 := by
  intro p hp
  rw [gocc_contexts] at hp
  by_cases hk : (lookupA st.contexts (context_key u s)).isSome
  · rw [if_pos hk] at hp
    exact h p hp
  · rw [if_neg hk] at hp
    rcases List.mem_append.mp hp with hp | hp
    · exact h p hp
    · simp only [List.mem_singleton] at hp
      rw [hp]
      simp [fresh_context]

/-- The turn a freshly processed call appends. -/
def fresh_turn (env : Env) (message intent : String) (conf : ℚ)
    (ents : List (String × EntVal)) (t1 : ℚ) : Turn :=
  { timestamp := t1, user_message := message,
    bot_response := (route env message intent conf (normalize_entities_alias env.kb intent ents)).1,
    intent := intent, entities := normalize_entities_alias env.kb intent ents }

/-- A freshly processed call leaves exactly the last-10 suffix of the
previous history extended by its turn. -/
theorem fresh_hist (env : Env) (st : PipelineState) (message u s : String)
    (t0 t1 : ℚ) (intent : String) (conf : ℚ) (ents : List (String × EntVal))
    (hm : message ≠ "") (hmiss : lookupA st.cache (cache_key_of message u s) = none)
    (hi : env.intent_predict message = .ok (intent, conf))
    (hn : env.ner_extract message = .ok ents) :
    get_conversation_history (process_message env st (.str message) u s t0 t1).state u s =
      lastN 10 (get_conversation_history st u s ++
        [fresh_turn env message intent conf ents t1]) := by
  rw [process_fresh_shape env st message u s t0 t1 intent conf ents hm hmiss hi hn,
    process_routed_state]
  simp only [get_conversation_history, lookupA_insertA_self]
  rw [update_context_hist, gocc_hist]
  rfl

/-- Single-call preservation of the history bound. -/
theorem histInv_process (env : Env) (st : PipelineState) (msg : Msg) (u s : String)
    (t0 t1 : ℚ) (h : HistInv st) :
    HistInv (process_message env st msg u s t0 t1).state := by
  cases msg with
  | notStr =>
    rw [process_invalid_shape env st u s t0 t1 _ (Or.inl rfl)]
    exact h
  | str m =>
    by_cases hm : m = ""
    · subst hm
      rw [process_invalid_shape env st u s t0 t1 _ (Or.inr rfl)]
      exact h
    · cases hc : lookupA st.cache (cache_key_of m u s) with
      | some stored =>
        rw [process_hit_shape env st m u s t0 t1 stored hm hc]
        intro p hp
        exact histInv_gocc st u s t0 h p hp
      | none =>
        cases hi : env.intent_predict m with
        | error e =>
          rw [process_err_intent_shape env st m u s t0 t1 e hm hc hi]
          exact histInv_gocc st u s t0 h
        | ok ic =>
          cases hn : env.ner_extract m with
          | error e =>
            rw [process_err_ner_shape env st m u s t0 t1 ic e hm hc hi hn]
            exact histInv_gocc st u s t0 h
          | ok ents =>
            have hi' : env.intent_predict m = .ok (ic.1, ic.2) := by rw [hi]
            rw [process_fresh_shape env st m u s t0 t1 ic.1 ic.2 ents hm hc hi' hn,
              process_routed_state]
            intro p hp
            rcases mem_insertA _ _ _ p hp with hp' | hp'
            · rw [hp']
              show (update_context _ _ _ _ _ _).conversation_history.length ≤ 10
              rw [update_context_hist, length_lastN]
              omega
            · exact histInv_gocc st u s t0 h p hp'

/-- Along a fresh run, the final history is the last-10 suffix of the
initial history extended by the produced turns in call order. -/
theorem freshRun_hist (env : Env) (u s : String) :
    ∀ (calls : List CallSpec) (st : PipelineState),
      freshRunB env u s st calls = true →
      (get_conversation_history st u s).length ≤ 10 →
      ∃ turns : List Turn, turns.length = calls.length ∧
        get_conversation_history (runSeq env u s st calls) u s =
          lastN 10 (get_conversation_history st u s ++ turns) := by
  intro calls
  induction calls with
  | nil =>
    intro st _ hlen
    exact ⟨[], rfl, by simp [runSeq, lastN_of_le _ _ hlen]⟩
  | cons c rest ih =>
    intro st hrun hlen
    simp only [freshRunB, Bool.and_eq_true] at hrun
    obtain ⟨⟨⟨⟨hm, hmiss⟩, hiok⟩, hnok⟩, hrest⟩ := hrun
    obtain ⟨ic, hi⟩ := (isOkB_iff _).mp hiok
    obtain ⟨ents, hn⟩ := (isOkB_iff _).mp hnok
    have hm' : c.msg ≠ "" := by simpa using hm
    have hmiss' : lookupA st.cache (cache_key_of c.msg u s) = none := by
      simpa [Option.isNone_iff_eq_none] using hmiss
    have hi' : env.intent_predict c.msg = .ok (ic.1, ic.2) := by rw [hi]
    have hstep := fresh_hist env st c.msg u s c.t0 c.t1 ic.1 ic.2 ents hm' hmiss' hi' hn
    have hlen' :
        (get_conversation_history
          (process_message env st (.str c.msg) u s c.t0 c.t1).state u s).length ≤ 10 := by
      rw [hstep, length_lastN]
      omega
    obtain ⟨turns', hlen'', hhist⟩ :=
      ih (process_message env st (.str c.msg) u s c.t0 c.t1).state hrest hlen'
    refine ⟨fresh_turn env c.msg ic.1 ic.2 ents c.t1 :: turns', by simp [hlen''], ?_⟩
    calc get_conversation_history (runSeq env u s st (c :: rest)) u s
        = lastN 10 (get_conversation_history
            (process_message env st (.str c.msg) u s c.t0 c.t1).state u s ++ turns') := hhist
      _ = lastN 10 (lastN 10 (get_conversation_history st u s ++
            [fresh_turn env c.msg ic.1 ic.2 ents c.t1]) ++ turns') := by rw [hstep]
      _ = lastN 10 ((get_conversation_history st u s ++
            [fresh_turn env c.msg ic.1 ic.2 ents c.t1]) ++ turns') := lastN_append_lastN _ _ _
      _ = lastN 10 (get_conversation_history st u s ++
            (fresh_turn env c.msg ic.1 ic.2 ents c.t1 :: turns')) := by
          rw [List.append_assoc]
          rfl

/-! ## Claim-side definitions for the entity-normalization property -/

/-- The `mata_kuliah` aliases of all course records, as the claim words
them ("the set of known course keys and their aliases"). -/
def courseAliases (kb : KB) : List String :=
  kb.matakuliah_data.flatMap (fun p => aliasGet p.2.aliasF "mata_kuliah")

/-- Loader invariant (kb_service.py stores `key.lower()` and
`alias.lower()` as the `matakuliah_data` keys). -/
def MatkulKeysLower (kb : KB) : Prop :=
  ∀ p ∈ kb.matakuliah_data, strLower p.1 = p.1

/-- The claim, stated from the spec words: fuzzy-match the raw value
case-insensitively against the known course keys and their aliases, and
replace it with the best match exactly when that match scores at least 75,
else keep the raw value. -/
def normalizeCourseSpec (kb : KB) (raw : String) : String :=
  match extractOne (strLower raw)
      ((kb.matakuliah_data.map (·.1) ++ courseAliases kb).map strLower) with
  | some best => if 75 ≤ best.2 then best.1 else raw
  | none => raw

/-- Under the loader invariant the code choice list is exactly the
lowercased keys-plus-aliases list of the claim. -/
theorem matkulChoices_eq (kb : KB) (hwf : MatkulKeysLower kb) :
    matkulChoices kb =
      (kb.matakuliah_data.map (·.1) ++ courseAliases kb).map strLower := by
  unfold matkulChoices courseAliases
  rw [List.map_append]
  congr 1
  · rw [List.map_map]
    exact List.map_congr_left (fun p hp => (hwf p hp).symm)
  · rw [List.map_flatMap]

/-- Every normalized entry value is a plain string. -/
theorem normalize_entry_vstr (kb : KB) (k : String) (v : EntVal) :
    ∃ str, normalize_entry kb k v = EntVal.vstr str := by
  unfold normalize_entry
  by_cases h0 : strTrim (to_str v) = ""
  · exact ⟨"", by simp [h0]⟩
  · simp only [h0, if_false]
    by_cases h1 : k = "MATA_KULIAH"
    · simp only [h1, if_true]
      cases extractOne (strLower (strTrim (to_str v))) (matkulChoices kb) <;>
        exact ⟨_, rfl⟩
    · simp only [h1, if_false]
      by_cases h2 : k = "DOSEN"
      · simp only [h2, if_true]
        cases extractOne (strTrim (strReplace (strReplace (strReplace
            (strLower (strTrim (to_str v))) "dosen" "") "pak" "") "bu" ""))
            (dosenChoices kb) <;>
          exact ⟨_, rfl⟩
      · exact ⟨strTrim (to_str v), by simp [h2]⟩

/-- Members of `zip l (l.map f)` pair each element with its image. -/
theorem mem_zip_map {α β : Type} (f : α → β) (l : List α) (q : α × β)
    (h : q ∈ List.zip l (l.map f)) : q.2 = f q.1 := by
  induction l with
  | nil => cases h
  | cons x xs ih =>
    simp only [List.map_cons, List.zip_cons_cons, List.mem_cons] at h
    rcases h with h | h
    · rw [h]
    · exact ih h

/-! ## Concrete sample environment (used by witnesses and counterexamples) -/

def kb0 : KB :=
  { matakuliah_data :=
      [("machine learning",
        { kode := "IF101", sks := 3, semester := 5, prodi := "Teknik Informatika",
          aliasF := some [("mata_kuliah", ["ML", "Pembelajaran Mesin"])] }),
       ("statistika", { kode := "IF102", sks := 2, semester := 3 })],
    dosen_data :=
      [("budi santoso",
        { nama_lengkap := "Budi Santoso", panggilan := "Budi", nidn := "0012",
          no_hp := "08123", matakuliah := "machine learning", semester := 5,
          prodi := "Teknik Informatika" })],
    dosen_by_matkul := [("machine learning", ["budi santoso"])],
    response_templates :=
      [("GREETING", ⟨"Halo! Ada yang bisa saya bantu?"⟩),
       ("DOSEN_PENGAMPU", ⟨"Dosen pengampu \x7bMATA_KULIAH\x7d adalah \x7bDOSEN\x7d."⟩)] }

/-- A deterministic environment whose intent model always answers
`GREETING` with confidence 0.99 and whose entity model finds nothing. -/
def env0 : Env :=
  { intent_predict := fun _ => .ok ("GREETING", 99 / 100),
    ner_extract := fun _ => .ok [],
    search_is_loaded := true,
    search := fun _ => .ok [],
    kb := kb0 }

/-- The same environment with a failing intent model. -/
def envErr : Env :=
  { env0 with intent_predict := fun _ => .error "Intent model not loaded" }

def state0 : PipelineState := {}

/-- A handmade cached result and a state holding it. -/
def r0 : PipelineResult :=
  { response := "Halo! Ada yang bisa saya bantu?", intent := "GREETING",
    entities := [], confidence := 99 / 100, template_used := some "GREETING",
    processing_time := some 1 }

def stHit : PipelineState :=
  { contexts := [], cache := [(cache_key_of "halo" "u" "s", r0)] }

/-- Repeat one message `n` times, collecting state and per-call results. -/
def runRepeat (env : Env) (m u s : String) :
    PipelineState → ℕ → PipelineState × List (Except String PipelineResult)
  | st, 0 => (st, [])
  | st, n + 1 =>
    let o := process_message env st (.str m) u s 0 1
    let r := runRepeat env m u s o.state n
    (r.1, o.res :: r.2)

def okWithIntent (i : String) : Except String PipelineResult → Bool
  | .ok x => x.intent = i
  | .error _ => false

/-- Ten distinct fresh calls for the sequence witness. -/
def callList10 : List CallSpec :=
  (List.range 10).map (fun i => { msg := "pesan " ++ toString i, t0 := 0, t1 := 1 })

/-! ## Claims -/

/-- C1: for a validated message, if the pipeline raises during the
try-block steps (here: either external prediction fails, the only steps
that can raise), `process_message` does not raise but returns a
`PipelineResult` with intent `"ERROR"`, confidence 0, empty entities, the
fixed apology text, and the exception message as `fallback_reason`; the
cache is left without an entry under the composite key. -/
theorem c1_unexpected_failure_error_result (env : Env) (st : PipelineState)
    (message u s : String) (t0 t1 : ℚ) (e : String)
    (hm : message ≠ "")
    (hmiss : lookupA st.cache (cache_key_of message u s) = none)
    (herr : env.intent_predict message = .error e ∨
      ∃ ic, env.intent_predict message = .ok ic ∧ env.ner_extract message = .error e) :
    ∃ r : PipelineResult,
      (process_message env st (.str message) u s t0 t1).res = .ok r ∧
      r.intent = "ERROR" ∧ r.confidence = 0 ∧ r.entities = [] ∧
      r.response = "Maaf, terjadi kesalahan dalam memproses pertanyaan Anda. Silakan coba lagi." ∧
      r.fallback_reason = some e ∧
      lookupA (process_message env st (.str message) u s t0 t1).state.cache
        (cache_key_of message u s) = none := by
  rcases herr with he | ⟨ic, hi, hn⟩
  · rw [process_err_intent_shape env st message u s t0 t1 e hm hmiss he]
    exact ⟨error_result e, rfl, rfl, rfl, rfl, rfl, rfl,
      by rw [gocc_cache]; exact hmiss⟩
  · rw [process_err_ner_shape env st message u s t0 t1 ic e hm hmiss hi hn]
    exact ⟨error_result e, rfl, rfl, rfl, rfl, rfl, rfl,
      by rw [gocc_cache]; exact hmiss⟩

theorem c1_witness :
    ∃ r : PipelineResult,
      (process_message envErr state0 (.str "halo") "u" "s" 0 1).res = .ok r ∧
      r.intent = "ERROR" ∧ r.confidence = 0 ∧ r.entities = [] ∧
      r.response = "Maaf, terjadi kesalahan dalam memproses pertanyaan Anda. Silakan coba lagi." ∧
      r.fallback_reason = some "Intent model not loaded" ∧
      lookupA (process_message envErr state0 (.str "halo") "u" "s" 0 1).state.cache
        (cache_key_of "halo" "u" "s") = none :=
  c1_unexpected_failure_error_result envErr state0 "halo" "u" "s" 0 1
    "Intent model not loaded" (by decide) rfl (Or.inl rfl)

/-- C2: whenever the intent service answers one of GREETING, HELP,
GOODBYE or CLARIFICATION — whatever the confidence and whether or not
search is loaded — the response is produced by the template engine
(`fill_template` on that intent and the normalized entities), the search
service is never invoked, and the result carries `search_results = none`
and `fallback_reason = none`. -/
theorem c2_conversational_template_path (env : Env) (st : PipelineState)
    (message u s : String) (t0 t1 : ℚ) (intent : String) (conf : ℚ)
    (ents : List (String × EntVal))
    (hm : message ≠ "")
    (hmiss : lookupA st.cache (cache_key_of message u s) = none)
    (hi : env.intent_predict message = .ok (intent, conf))
    (hn : env.ner_extract message = .ok ents)
    (hg : intent ∈ (["GREETING", "HELP", "GOODBYE", "CLARIFICATION"] : List String)) :
    ∃ r : PipelineResult,
      (process_message env st (.str message) u s t0 t1).res = .ok r ∧
      r.response = fill_template env.kb intent (normalize_entities_alias env.kb intent ents) none ∧
      r.search_results = none ∧ r.fallback_reason = none ∧
      Effect.searchCall ∉ (process_message env st (.str message) u s t0 t1).trace := by
  have hg' : intent = "GREETING" ∨ intent = "HELP" ∨ intent = "GOODBYE" ∨
      intent = "CLARIFICATION" := by simpa using hg
  have hr := route_greeting env message intent conf
    (normalize_entities_alias env.kb intent ents) hg'
  rw [process_fresh_shape env st message u s t0 t1 intent conf ents hm hmiss hi hn]
  refine ⟨routed_result env message intent conf ents t0 t1,
    process_routed_res env _ _ message u s intent conf ents t0 t1, ?_, ?_, ?_, ?_⟩
  · show (route env message intent conf (normalize_entities_alias env.kb intent ents)).1 = _
    rw [hr]
  · show (route env message intent conf (normalize_entities_alias env.kb intent ents)).2.1 = none
    rw [hr]
  · show (route env message intent conf
      (normalize_entities_alias env.kb intent ents)).2.2.1 = none
    rw [hr]
  · rw [process_routed_trace, hr]
    simp

theorem c2_witness :
    ∃ r : PipelineResult,
      (process_message env0 state0 (.str "halo") "u" "s" 0 1).res = .ok r ∧
      r.response = fill_template env0.kb "GREETING"
        (normalize_entities_alias env0.kb "GREETING" []) none ∧
      r.search_results = none ∧ r.fallback_reason = none ∧
      Effect.searchCall ∉ (process_message env0 state0 (.str "halo") "u" "s" 0 1).trace :=
  c2_conversational_template_path env0 state0 "halo" "u" "s" 0 1 "GREETING" (99 / 100) []
    (by decide) rfl rfl rfl (by decide)

/-- C3: if a first call is freshly processed to completion, a second call
with identical arguments returns a result with the same response, intent,
entities and confidence; the first result has `cached = false` and the
second `cached = true`. -/
theorem c3_cache_idempotence (env : Env) (st : PipelineState) (message u s : String)
    (t0 t1 t2 t3 : ℚ) (intent : String) (conf : ℚ) (ents : List (String × EntVal))
    (hm : message ≠ "")
    (hmiss : lookupA st.cache (cache_key_of message u s) = none)
    (hi : env.intent_predict message = .ok (intent, conf))
    (hn : env.ner_extract message = .ok ents) :
    ∃ r1 r2 : PipelineResult,
      (process_message env st (.str message) u s t0 t1).res = .ok r1 ∧
      (process_message env (process_message env st (.str message) u s t0 t1).state
        (.str message) u s t2 t3).res = .ok r2 ∧
      r1.cached = false ∧ r2.cached = true ∧
      r2.response = r1.response ∧ r2.intent = r1.intent ∧
      r2.entities = r1.entities ∧ r2.confidence = r1.confidence := by
  rw [process_fresh_shape env st message u s t0 t1 intent conf ents hm hmiss hi hn]
  have hhit : lookupA (process_routed env (get_or_create_context st u s t0).2
      (get_or_create_context st u s t0).1 message u s intent conf ents t0 t1).state.cache
      (cache_key_of message u s) = some (routed_result env message intent conf ents t0 t1) := by
    rw [process_routed_state]
    exact lookupA_insertA_self _ _ _
  rw [process_hit_shape env _ message u s t2 t3 _ hm hhit]
  exact ⟨routed_result env message intent conf ents t0 t1,
    hit_update (routed_result env message intent conf ents t0 t1) t2 t3,
    process_routed_res env _ _ message u s intent conf ents t0 t1,
    rfl, rfl, rfl, rfl, rfl, rfl, rfl⟩

theorem c3_witness :
    ∃ r1 r2 : PipelineResult,
      (process_message env0 state0 (.str "halo") "u" "s" 0 1).res = .ok r1 ∧
      (process_message env0 (process_message env0 state0 (.str "halo") "u" "s" 0 1).state
        (.str "halo") "u" "s" 2 3).res = .ok r2 ∧
      r1.cached = false ∧ r2.cached = true ∧
      r2.response = r1.response ∧ r2.intent = r1.intent ∧
      r2.entities = r1.entities ∧ r2.confidence = r1.confidence :=
  c3_cache_idempotence env0 state0 "halo" "u" "s" 0 1 2 3 "GREETING" (99 / 100) []
    (by decide) rfl rfl rfl

/-- C4 (amended): every completed call preserves the invariant that each
registered history holds at most 10 turns; and along any run of N
successful cache-miss (freshly processed) calls for one (user, session)
pair, the final history is the last-10 suffix of the initial history
extended by the N produced turns in call order (oldest evicted first), so
for N at least 10 it holds exactly the 10 most recent turns. (As stated,
with arbitrary successful calls, the claim fails: cache hits append no
turn — see the counterexample.) -/
theorem c4_history_bound :
    (∀ (env : Env) (st : PipelineState) (msg : Msg) (u s : String) (t0 t1 : ℚ),
      HistInv st → HistInv (process_message env st msg u s t0 t1).state) ∧
    (∀ (env : Env) (u s : String) (st : PipelineState) (calls : List CallSpec),
      freshRunB env u s st calls = true →
      (get_conversation_history st u s).length ≤ 10 →
      ∃ turns : List Turn, turns.length = calls.length ∧
        get_conversation_history (runSeq env u s st calls) u s =
          lastN 10 (get_conversation_history st u s ++ turns) ∧
        (10 ≤ calls.length →
          (get_conversation_history (runSeq env u s st calls) u s).length = 10)) := by
  constructor
  · exact fun env st msg u s t0 t1 h => histInv_process env st msg u s t0 t1 h
  · intro env u s st calls hrun hlen
    obtain ⟨turns, hl, hh⟩ := freshRun_hist env u s calls st hrun hlen
    refine ⟨turns, hl, hh, fun hN => ?_⟩
    rw [hh, length_lastN, List.length_append]
    omega

set_option maxRecDepth 8000 in
/-- C4 counterexample: ten successful calls (each returns a non-ERROR
`GREETING` result) for the same (user, session) pair after which the
conversation history holds one turn, not ten: nine of the ten calls are
cache hits, which append nothing. -/
theorem c4_counterexample :
    (runRepeat env0 "halo" "u" "s" state0 10).2.length = 10 ∧
    (runRepeat env0 "halo" "u" "s" state0 10).2.all (okWithIntent "GREETING") = true ∧
    (get_conversation_history (runRepeat env0 "halo" "u" "s" state0 10).1 "u" "s").length
      = 1 := by
  refine ⟨by decide, by decide, by decide⟩

set_option maxRecDepth 8000 in
theorem c4_witness :
    HistInv (process_message env0 state0 (.str "halo") "u" "s" 0 1).state ∧
    (∃ turns : List Turn, turns.length = callList10.length ∧
      get_conversation_history (runSeq env0 "u" "s" state0 callList10) "u" "s" =
        lastN 10 (get_conversation_history state0 "u" "s" ++ turns) ∧
      (10 ≤ callList10.length →
        (get_conversation_history (runSeq env0 "u" "s" state0 callList10) "u" "s").length
          = 10)) :=
  ⟨c4_history_bound.1 env0 state0 (.str "halo") "u" "s" 0 1
      (fun p hp => absurd hp (List.not_mem_nil p)),
   c4_history_bound.2 env0 "u" "s" state0 callList10 (by decide) (by decide)⟩

/-- C5: for a non-empty raw `MATA_KULIAH` value, normalization replaces it
with the result of a case-insensitive fuzzy match against the known course
keys and their aliases — the best match exactly when its score is at least
75 on the 0..100 scale, else the trimmed stringified raw value — under the
loader invariant that stored course keys are lowercase. -/
theorem c5_course_normalization (kb : KB) (intent : String)
    (ents : List (String × EntVal)) (v : EntVal)
    (hwf : MatkulKeysLower kb)
    (hv : lookupA ents "MATA_KULIAH" = some v)
    (hne : strTrim (to_str v) ≠ "") :
    lookupA (normalize_entities_alias kb intent ents) "MATA_KULIAH" =
      some (EntVal.vstr (normalizeCourseSpec kb (strTrim (to_str v)))) := by
  unfold normalize_entities_alias
  rw [lookupA_map (normalize_entry kb) ents "MATA_KULIAH", hv]
  show some (normalize_entry kb "MATA_KULIAH" v) = _
  unfold normalize_entry normalizeCourseSpec
  rw [matkulChoices_eq kb hwf] at *
  simp only [if_neg hne, if_pos rfl]
  cases extractOne (strLower (strTrim (to_str v)))
      ((kb.matakuliah_data.map (·.1) ++ courseAliases kb).map strLower) with
  | none => rfl
  | some best => rfl

/-- A one-course, one-alias knowledge base for the C5 witness. -/
def kb5 : KB :=
  { matakuliah_data :=
      [("machine learning",
        { kode := "IF101", sks := 3, aliasF := some [("mata_kuliah", ["ML"])] })] }

theorem c5_witness :
    lookupA (normalize_entities_alias kb5 "DOSEN_PENGAMPU"
        [("MATA_KULIAH", EntVal.vlist ["Machine Lerning"])]) "MATA_KULIAH" =
      some (EntVal.vstr "machine learning") := by
  have h := c5_course_normalization kb5 "DOSEN_PENGAMPU"
    [("MATA_KULIAH", EntVal.vlist ["Machine Lerning"])] (EntVal.vlist ["Machine Lerning"])
    (by unfold MatkulKeysLower; decide) rfl (by decide)
  rw [h]
  have hx : extractOne "machine lerning" ["machine learning", "ml"] =
      some ("machine learning", 3000 / 31) := by
    unfold extractOne
    simp only [List.foldl]
    rw [show fuzzScore "machine lerning" "machine learning" = 3000 / 31 from by
      unfold fuzzScore
      rw [show lcsLen "machine lerning".data "machine learning".data = 15 from by decide]
      norm_num]
    rw [show fuzzScore "machine lerning" "ml" = 400 / 17 from by
      unfold fuzzScore
      rw [show lcsLen "machine lerning".data "ml".data = 2 from by decide]
      norm_num]
    norm_num
  show some (EntVal.vstr (normalizeCourseSpec kb5 "Machine Lerning")) = _
  unfold normalizeCourseSpec
  rw [show strLower "Machine Lerning" = "machine lerning" from by decide]
  rw [show ((kb5.matakuliah_data.map (·.1) ++ courseAliases kb5).map strLower)
      = ["machine learning", "ml"] from by decide]
  rw [hx]
  norm_num

/-- C6: the fallback generator returns the entry of the fixed 4-element
response list indexed by the MD5 hash of the message modulo 4, hence
always one of the four fixed strings; as a pure function of the message it
is deterministic (identical messages give the identical string) and total. -/
theorem c6_fallback_md5_selection (message : String) :
    generate_fallback_response message =
      fallback_responses.getD (md5Nat message % 4) "" ∧
    generate_fallback_response message ∈ fallback_responses := by
  refine ⟨rfl, ?_⟩
  have h4 : md5Nat message % 4 = 0 ∨ md5Nat message % 4 = 1 ∨
      md5Nat message % 4 = 2 ∨ md5Nat message % 4 = 3 := by omega
  rcases h4 with h | h | h | h <;>
    simp [generate_fallback_response, fallback_responses, h]

set_option maxRecDepth 8000 in
/-- Anchor for the MD5 model: an RFC 1321 test vector. -/
theorem md5_anchor_empty : md5Nat "" = 0xd41d8cd98f00b204e9800998ecf8427e := by decide

set_option maxRecDepth 8000 in
/-- Anchor for the MD5 model: an RFC 1321 test vector. -/
theorem md5_anchor_abc : md5Nat "abc" = 0x900150983cd24fb0d6963f7d28e17f72 := by decide

/-- C7: an empty or non-string message is rejected before any service call
as a raised `ChatbotException` (not converted into a fallback or ERROR
result): the exception propagates, the state — cache and context registry —
is untouched, and no external service is invoked. -/
theorem c7_input_validation (env : Env) (st : PipelineState) (u s : String)
    (t0 t1 : ℚ) (msg : Msg) (hbad : msg = Msg.notStr ∨ msg = Msg.str "") :
    (process_message env st msg u s t0 t1).res = .error "Invalid input text." ∧
    (process_message env st msg u s t0 t1).state = st ∧
    (process_message env st msg u s t0 t1).trace = [] := by
  rw [process_invalid_shape env st u s t0 t1 msg hbad]
  exact ⟨rfl, rfl, rfl⟩

theorem c7_witness :
    (process_message env0 state0 (Msg.str "") "u" "s" 0 1).res =
      .error "Invalid input text." ∧
    (process_message env0 state0 (Msg.str "") "u" "s" 0 1).state = state0 ∧
    (process_message env0 state0 (Msg.str "") "u" "s" 0 1).trace = [] :=
  c7_input_validation env0 state0 "u" "s" 0 1 (Msg.str "") (Or.inr rfl)

/-- C8 (amended): a call whose composite key is cached returns the stored
result with `cached = true` and a refreshed processing time, makes no
service call, and leaves every existing context binding (hence every
conversation history) unchanged; the registry itself is unchanged except
that, because the orchestrator resolves the context before the cache
check, a missing context for the (user, session) pair is created empty.
(As stated — registry entirely unchanged — the claim fails after
`clear_context`; see the counterexample.) -/
theorem c8_cache_hit_no_recomputation (env : Env) (st : PipelineState)
    (message u s : String) (t0 t1 : ℚ) (stored : PipelineResult)
    (hm : message ≠ "")
    (hhit : lookupA st.cache (cache_key_of message u s) = some stored) :
    (process_message env st (.str message) u s t0 t1).res = .ok (hit_update stored t0 t1) ∧
    (hit_update stored t0 t1).cached = true ∧
    (hit_update stored t0 t1).processing_time = some (round4 (t1 - t0)) ∧
    (hit_update stored t0 t1).response = stored.response ∧
    (hit_update stored t0 t1).intent = stored.intent ∧
    (hit_update stored t0 t1).entities = stored.entities ∧
    (hit_update stored t0 t1).confidence = stored.confidence ∧
    (process_message env st (.str message) u s t0 t1).trace = [] ∧
    (∀ k c, lookupA st.contexts k = some c →
      lookupA (process_message env st (.str message) u s t0 t1).state.contexts k = some c) ∧
    (process_message env st (.str message) u s t0 t1).state.contexts =
      (if (lookupA st.contexts (context_key u s)).isSome then st.contexts
       else st.contexts ++ [(context_key u s, fresh_context u s t0)]) := by
  rw [process_hit_shape env st message u s t0 t1 stored hm hhit]
  exact ⟨rfl, rfl, rfl, rfl, rfl, rfl, rfl, rfl,
    fun k c h => gocc_lookup_some st u s t0 k c h, gocc_contexts st u s t0⟩

set_option maxRecDepth 8000 in
/-- C8 counterexample: after a processed call and a `clear_context`, the
repeated message is a cache hit, yet the call changes the context
registry (it recreates an empty context for the pair). -/
theorem c8_counterexample :
    (lookupA (clear_context (process_message env0 state0 (.str "halo") "u" "s" 0 1).state
        "u" "s").cache (cache_key_of "halo" "u" "s")).isSome = true ∧
    (process_message env0 (clear_context (process_message env0 state0
          (.str "halo") "u" "s" 0 1).state "u" "s")
        (.str "halo") "u" "s" 2 3).state.contexts ≠
      (clear_context (process_message env0 state0 (.str "halo") "u" "s" 0 1).state
        "u" "s").contexts :=
  ⟨by decide, by decide⟩

theorem c8_witness :
    (process_message env0 stHit (.str "halo") "u" "s" 0 1).res = .ok (hit_update r0 0 1) ∧
    (hit_update r0 0 1).cached = true ∧
    (hit_update r0 0 1).processing_time = some (round4 (1 - 0)) ∧
    (hit_update r0 0 1).response = r0.response ∧
    (hit_update r0 0 1).intent = r0.intent ∧
    (hit_update r0 0 1).entities = r0.entities ∧
    (hit_update r0 0 1).confidence = r0.confidence ∧
    (process_message env0 stHit (.str "halo") "u" "s" 0 1).trace = [] ∧
    (∀ k c, lookupA stHit.contexts k = some c →
      lookupA (process_message env0 stHit (.str "halo") "u" "s" 0 1).state.contexts k
        = some c) ∧
    (process_message env0 stHit (.str "halo") "u" "s" 0 1).state.contexts =
      (if (lookupA stHit.contexts (context_key "u" "s")).isSome then stHit.contexts
       else stHit.contexts ++ [(context_key "u" "s", fresh_context "u" "s" 0)]) :=
  c8_cache_hit_no_recomputation env0 stHit "halo" "u" "s" 0 1 r0 (by decide) rfl

/-- C9: a cache entry, once present, is never changed by later calls in
its response, intent, entities, confidence, search results, template or
fallback reason; and unless the later call is a retrieval under that very
key, the entry is unchanged entirely (only a hit on the key may update its
`cached` flag and processing time). -/
theorem c9_cache_entry_immutable (env : Env) (st : PipelineState) (msg : Msg)
    (u s : String) (t0 t1 : ℚ) (key : String) (entry : PipelineResult)
    (hkey : lookupA st.cache key = some entry) :
    ∃ e' : PipelineResult,
      lookupA (process_message env st msg u s t0 t1).state.cache key = some e' ∧
      e'.response = entry.response ∧ e'.intent = entry.intent ∧
      e'.entities = entry.entities ∧ e'.confidence = entry.confidence ∧
      e'.search_results = entry.search_results ∧
      e'.template_used = entry.template_used ∧
      e'.fallback_reason = entry.fallback_reason ∧
      ((∀ m, msg = Msg.str m → cache_key_of m u s ≠ key) → e' = entry) := by
  cases msg with
  | notStr =>
    rw [process_invalid_shape env st u s t0 t1 _ (Or.inl rfl)]
    exact ⟨entry, hkey, rfl, rfl, rfl, rfl, rfl, rfl, rfl, fun _ => rfl⟩
  | str m =>
    by_cases hm : m = ""
    · subst hm
      rw [process_invalid_shape env st u s t0 t1 _ (Or.inr rfl)]
      exact ⟨entry, hkey, rfl, rfl, rfl, rfl, rfl, rfl, rfl, fun _ => rfl⟩
    · by_cases heq : cache_key_of m u s = key
      · have hhit : lookupA st.cache (cache_key_of m u s) = some entry := by
          rw [heq]; exact hkey
        rw [process_hit_shape env st m u s t0 t1 entry hm hhit]
        refine ⟨hit_update entry t0 t1, ?_, rfl, rfl, rfl, rfl, rfl, rfl, rfl, ?_⟩
        · show lookupA (insertA st.cache (cache_key_of m u s) (hit_update entry t0 t1)) key
            = some (hit_update entry t0 t1)
          rw [← heq]
          exact lookupA_insertA_self _ _ _
        · intro hno
          exact absurd heq (hno m rfl)
      · cases hc : lookupA st.cache (cache_key_of m u s) with
        | some stored =>
          rw [process_hit_shape env st m u s t0 t1 stored hm hc]
          refine ⟨entry, ?_, rfl, rfl, rfl, rfl, rfl, rfl, rfl, fun _ => rfl⟩
          show lookupA (insertA st.cache (cache_key_of m u s) (hit_update stored t0 t1)) key
            = some entry
          rw [lookupA_insertA_ne st.cache (cache_key_of m u s) key _
            (fun hh => heq hh.symm)]
          exact hkey
        | none =>
          cases hi : env.intent_predict m with
          | error e =>
            rw [process_err_intent_shape env st m u s t0 t1 e hm hc hi]
            refine ⟨entry, ?_, rfl, rfl, rfl, rfl, rfl, rfl, rfl, fun _ => rfl⟩
            show lookupA (get_or_create_context st u s t0).2.cache key = some entry
            rw [gocc_cache]
            exact hkey
          | ok ic =>
            cases hn : env.ner_extract m with
            | error e =>
              rw [process_err_ner_shape env st m u s t0 t1 ic e hm hc hi hn]
              refine ⟨entry, ?_, rfl, rfl, rfl, rfl, rfl, rfl, rfl, fun _ => rfl⟩
              show lookupA (get_or_create_context st u s t0).2.cache key = some entry
              rw [gocc_cache]
              exact hkey
            | ok ents =>
              have hi' : env.intent_predict m = .ok (ic.1, ic.2) := by rw [hi]
              rw [process_fresh_shape env st m u s t0 t1 ic.1 ic.2 ents hm hc hi' hn,
                process_routed_state]
              refine ⟨entry, ?_, rfl, rfl, rfl, rfl, rfl, rfl, rfl, fun _ => rfl⟩
              show lookupA (insertA (get_or_create_context st u s t0).2.cache
                  (cache_key_of m u s) (routed_result env m ic.1 ic.2 ents t0 t1)) key
                = some entry
              rw [lookupA_insertA_ne _ (cache_key_of m u s) key _
                (fun hh => heq hh.symm), gocc_cache]
              exact hkey

theorem c9_witness :
    ∃ e' : PipelineResult,
      lookupA (process_message env0 stHit (.str "pesan lain") "u" "s" 0 1).state.cache
        (cache_key_of "halo" "u" "s") = some e' ∧
      e'.response = r0.response ∧ e'.intent = r0.intent ∧
      e'.entities = r0.entities ∧ e'.confidence = r0.confidence ∧
      e'.search_results = r0.search_results ∧
      e'.template_used = r0.template_used ∧
      e'.fallback_reason = r0.fallback_reason ∧
      ((∀ m, Msg.str "pesan lain" = Msg.str m →
        cache_key_of m "u" "s" ≠ cache_key_of "halo" "u" "s") → e' = r0) :=
  c9_cache_entry_immutable env0 stHit (.str "pesan lain") "u" "s" 0 1
    (cache_key_of "halo" "u" "s") r0 rfl

/-- C10 (implicit): normalization returns a mapping with exactly the keys
of the input, every returned value is a plain string, and an entry whose
raw value trims to nothing (empty string, empty list) is mapped to the
empty string. -/
theorem c10_normalization_shape (kb : KB) (intent : String)
    (ents : List (String × EntVal)) :
    (normalize_entities_alias kb intent ents).map Prod.fst = ents.map Prod.fst ∧
    (∀ p ∈ normalize_entities_alias kb intent ents, ∃ str, p.2 = EntVal.vstr str) ∧
    (∀ q ∈ List.zip ents (normalize_entities_alias kb intent ents),
      strTrim (to_str q.1.2) = "" → q.2.2 = EntVal.vstr "") := by
  refine ⟨?_, ?_, ?_⟩
  · unfold normalize_entities_alias
    rw [List.map_map]
    exact List.map_congr_left (fun p _ => rfl)
  · intro p hp
    unfold normalize_entities_alias at hp
    rw [List.mem_map] at hp
    obtain ⟨q, hq, hpe⟩ := hp
    rw [← hpe]
    exact normalize_entry_vstr kb q.1 q.2
  · intro q hq hempty
    unfold normalize_entities_alias at hq
    have hz := mem_zip_map
      (fun p : String × EntVal => (p.1, normalize_entry kb p.1 p.2)) ents q hq
    rw [hz]
    show normalize_entry kb q.1.1 q.1.2 = EntVal.vstr ""
    unfold normalize_entry
    simp [hempty]

def ents10 : List (String × EntVal) :=
  [("MATA_KULIAH", EntVal.vlist ["ML"]), ("DOSEN", EntVal.vstr "Pak Budi"),
   ("HARI", EntVal.vlist []), ("SEMESTER", EntVal.vstr " ")]

theorem c10_witness :
    (normalize_entities_alias kb5 "JADWAL_HARI" ents10).map Prod.fst =
      ents10.map Prod.fst ∧
    (∀ p ∈ normalize_entities_alias kb5 "JADWAL_HARI" ents10,
      ∃ str, p.2 = EntVal.vstr str) ∧
    (∀ q ∈ List.zip ents10 (normalize_entities_alias kb5 "JADWAL_HARI" ents10),
      strTrim (to_str q.1.2) = "" → q.2.2 = EntVal.vstr "") :=
  c10_normalization_shape kb5 "JADWAL_HARI" ents10
